import Mathlib

/-!
Shallow embedding of the SecureCheck assessment engine
(`securityAssessment` module) and of the risk-band logic of its PDF
export collaborator (`pdfExport` module), together with proofs of the
specification's testable properties.

The engine is a pure function from a domain string to a report record;
all simulated results are derived from a 32-bit rolling hash of the
cleaned input and a fixed trusted-domain allow-list.  The `timestamp`
field, produced by the system clock in the source, is modelled as an
explicit `now` parameter.
-/

/-- JavaScript `ToInt32`: reduce an integer modulo 2^32 into the signed
range [-2^31, 2^31). This is what `x & x` (and the result of `<<`)
produces in the source. -/
def toInt32 (n : Int) : Int :=
  if n % 4294967296 < 2147483648 then n % 4294967296 else n % 4294967296 - 4294967296

/-- `simpleHash` from the source: `hash = ((hash << 5) - hash) + char;
hash = hash & hash` per character, starting from 0, and `Math.abs` of
the final accumulator. `hash << 5` is the 32-bit truncation of
`hash * 32`, and `hash & hash` is `ToInt32` of the exact sum. -/
def simpleHash (str : String) : Nat :=
  (str.data.foldl (fun hash c => toInt32 (toInt32 (hash * 32) - hash + c.toNat)) 0).natAbs

/-- The reference rolling hash exactly as the spec words it: the
accumulator starts at 0 and is updated as `acc = acc*31 + codepoint`
truncated to the 32-bit signed range; the absolute value of the final
accumulator is returned. -/
def specRollingHash (str : String) : Nat :=
  (str.data.foldl (fun acc c => toInt32 (acc * 31 + c.toNat)) 0).natAbs

/-- JavaScript `String.prototype.trim` on a list of characters: drop
whitespace from both ends. -/
def trimList (l : List Char) : List Char :=
  ((l.dropWhile Char.isWhitespace).reverse.dropWhile Char.isWhitespace).reverse

/-- Remove `pre` from the front of `l` when it is present (the effect of
`replace(/^pre/, '')` for a literal pattern). -/
def stripLead (pre l : List Char) : List Char :=
  if pre.isPrefixOf l then l.drop pre.length else l

/-- Strip one leading `http://` or `https://`, as the optional scheme
group of the source's regular expression does. -/
def stripScheme (l : List Char) : List Char :=
  if "https://".data.isPrefixOf l then l.drop 8
  else if "http://".data.isPrefixOf l then l.drop 7
  else l

/-- Core of `cleanDomain` on character lists: trim, lower-case, strip an
optional scheme then an optional `www.`, then truncate at the first `/`
and at the first `?` (JavaScript `split(sep)[0]`). -/
def cleanCore (l : List Char) : List Char :=
  ((stripLead "www.".data (stripScheme ((trimList l).map Char.toLower))).takeWhile
      (fun c => c != '/')).takeWhile (fun c => c != '?')

/-- `cleanDomain` from the source. -/
def cleanDomain (input : String) : String := ⟨cleanCore input.data⟩

/-- The literal `trustedDomains` array of the source, bare `edu`/`gov`
entries included. -/
def trustedDomains : List String :=
  ["google.com", "github.com", "microsoft.com", "apple.com",
   "amazon.com", "cloudflare.com", "mozilla.org", "w3.org",
   "stackoverflow.com", "wikipedia.org", "edu", "gov"]

/-- `isTrustedDomain` from the source: lower-case, strip one leading
`www.`, then `trustedDomains.some(...)` with the exact four-way test of
the callback. -/
def isTrustedDomain (domain : String) : Bool :=
  let normalized : List Char := stripLead "www.".data (domain.data.map Char.toLower)
  trustedDomains.any (fun trusted =>
    normalized == trusted.data ||
    ("." ++ trusted).data.isSuffixOf normalized ||
    ".edu".data.isSuffixOf normalized ||
    ".gov".data.isSuffixOf normalized)

/-- The ten-entry allow-list the spec describes (no bare `edu`/`gov`). -/
def specAllowList : List String :=
  ["google.com", "github.com", "microsoft.com", "apple.com",
   "amazon.com", "cloudflare.com", "mozilla.org", "w3.org",
   "stackoverflow.com", "wikipedia.org"]

/-- The normalization step shared by the trust classifier and the spec's
description of it: lower-case and strip one leading `www.`. -/
def specNormalize (domain : String) : List Char :=
  stripLead "www.".data (domain.data.map Char.toLower)

/-- The trust predicate exactly as the spec words it: the normalized
string equals one of the ten allow-list entries, or ends with `.edu`,
or ends with `.gov`, or ends with `.` followed by an allow-list entry. -/
def specTrusted (domain : String) : Bool :=
  specAllowList.any (fun t => specNormalize domain == t.data) ||
  ".edu".data.isSuffixOf (specNormalize domain) ||
  ".gov".data.isSuffixOf (specNormalize domain) ||
  specAllowList.any (fun t => ("." ++ t).data.isSuffixOf (specNormalize domain))

/-- The spec predicate amended with the two extra exact matches the
source's bare `edu`/`gov` entries actually contribute. -/
def specTrustedAmended (domain : String) : Bool :=
  specTrusted domain || specNormalize domain == "edu".data || specNormalize domain == "gov".data

/-- Certificate status values of a report. -/
inductive CertStatus where
  | Valid
  | Unknown
  | Expired
deriving DecidableEq, Repr

/-- Overall risk values of a report. -/
inductive Risk where
  | Low
  | Medium
  | High
deriving DecidableEq, Repr

/-- One security-header finding of a report. -/
structure SecurityHeader where
  name : String
  description : String
  present : Bool
  recommendation : String
deriving DecidableEq, Repr

/-- The `ssl` sub-record of a report. -/
structure SSLInfo where
  available : Bool
  certificateStatus : CertStatus
  expiryDays : Option Nat
deriving DecidableEq, Repr

/-- The `dns` sub-record of a report. -/
structure DNSInfo where
  reachable : Bool
  responseTime : String
deriving DecidableEq, Repr

/-- The engine's output record. -/
structure SecurityReport where
  domain : String
  timestamp : String
  ssl : SSLInfo
  headers : List SecurityHeader
  dns : DNSInfo
  overallRisk : Risk
  riskScore : Int
  recommendations : List String
deriving DecidableEq, Repr

/-- SSL availability: `isTrusted || (hash % 10) > 2`. -/
def hasSSLOf (isTrusted : Bool) (hash : Nat) : Bool :=
  isTrusted || decide (hash % 10 > 2)

/-- Certificate status and expiry days, following the source's branch
structure: no SSL gives Unknown; trusted gives Valid with
`90 + hash % 275` days; otherwise `certRoll = hash % 100` decides. -/
def certStatusOf (isTrusted hasSSL : Bool) (hash : Nat) : CertStatus × Option Nat :=
  if !hasSSL then (CertStatus.Unknown, none)
  else if isTrusted then (CertStatus.Valid, some (90 + hash % 275))
  else
    let certRoll := hash % 100
    if certRoll > 20 then (CertStatus.Valid, some (30 + hash % 335))
    else if certRoll > 5 then (CertStatus.Unknown, none)
    else (CertStatus.Expired, none)

/-- The four fixed header findings, with the source's literal texts and
per-header presence tests. -/
def headersOf (isTrusted : Bool) (hash : Nat) : List SecurityHeader :=
  [{ name := "HSTS (Strict-Transport-Security)"
     description := "Forces browsers to use HTTPS, preventing downgrade attacks"
     present := isTrusted || decide (hash % 7 > 2)
     recommendation := "Enable HSTS with a minimum max-age of 31536000 seconds" },
   { name := "Content-Security-Policy"
     description := "Prevents XSS attacks by controlling resource loading"
     present := isTrusted || decide (hash % 11 > 4)
     recommendation := "Implement a strict CSP that limits script and style sources" },
   { name := "X-Frame-Options"
     description := "Prevents clickjacking by controlling iframe embedding"
     present := isTrusted || decide (hash % 5 > 1)
     recommendation := "Set to DENY or SAMEORIGIN to prevent framing attacks" },
   { name := "X-Content-Type-Options"
     description := "Prevents MIME type sniffing attacks"
     present := isTrusted || decide (hash % 4 > 0)
     recommendation := "Set to 'nosniff' to prevent MIME type confusion" }]

/-- DNS reachability: `isTrusted || (hash % 20) > 1`. -/
def dnsReachableOf (isTrusted : Bool) (hash : Nat) : Bool :=
  isTrusted || decide (hash % 20 > 1)

/-- Response-time string: `${50 + hash % 150}ms` when reachable,
`"N/A"` otherwise. -/
def responseTimeOf (dnsReachable : Bool) (hash : Nat) : String :=
  if dnsReachable then toString (50 + hash % 150) ++ "ms" else "N/A"

/-- Risk score as computed by the source: start at 100, subtract the SSL,
certificate, per-missing-header and DNS deductions in order, then clamp
with `Math.max(0, Math.min(100, riskScore))`. -/
def riskScoreOf (hasSSL : Bool) (cert : CertStatus) (headers : List SecurityHeader)
    (dnsReachable : Bool) : Int :=
  let s1 : Int := if !hasSSL then 100 - 30 else 100
  let s2 := if cert = CertStatus.Unknown then s1 - 10 else s1
  let s3 := if cert = CertStatus.Expired then s2 - 20 else s2
  let s4 := headers.foldl (fun acc h => if !h.present then acc - 10 else acc) s3
  let s5 := if !dnsReachable then s4 - 15 else s4
  max 0 (min 100 s5)

/-- Overall risk banding of the source: `>= 70` Low, `>= 40` Medium,
otherwise High. -/
def overallRiskOf (riskScore : Int) : Risk :=
  if riskScore ≥ 70 then Risk.Low
  else if riskScore ≥ 40 then Risk.Medium
  else Risk.High

/-- Recommendations, pushed in the source's order: SSL, Expired, Unknown,
each missing header's text, DNS; with the single positive affirmation
when nothing failed. -/
def recommendationsOf (hasSSL : Bool) (cert : CertStatus) (headers : List SecurityHeader)
    (dnsReachable : Bool) : List String :=
  let recs :=
    (if !hasSSL then ["Implement SSL/TLS encryption to secure data in transit"] else []) ++
    (if cert = CertStatus.Expired then ["Renew the SSL/TLS certificate immediately"] else []) ++
    (if cert = CertStatus.Unknown then ["Verify SSL/TLS certificate configuration"] else []) ++
    (headers.filter (fun h => !h.present)).map (fun h => h.recommendation) ++
    (if !dnsReachable then ["Investigate DNS configuration and ensure proper resolution"] else [])
  if recs.isEmpty then ["Continue monitoring and maintain current security controls"] else recs

/-- `performSecurityAssessment` from the source, with the clock value
passed in as `now` (the source stores `new Date().toISOString()`). -/
def performSecurityAssessment (domain : String) (now : String) : SecurityReport :=
  let cleanedDomain := cleanDomain domain
  let hash := simpleHash cleanedDomain
  let isTrusted := isTrustedDomain cleanedDomain
  let hasSSL := hasSSLOf isTrusted hash
  let certPair := certStatusOf isTrusted hasSSL hash
  let headers := headersOf isTrusted hash
  let dnsReachable := dnsReachableOf isTrusted hash
  let riskScore := riskScoreOf hasSSL certPair.1 headers dnsReachable
  { domain := cleanedDomain
    timestamp := now
    ssl := { available := hasSSL, certificateStatus := certPair.1, expiryDays := certPair.2 }
    headers := headers
    dns := { reachable := dnsReachable, responseTime := responseTimeOf dnsReachable hash }
    overallRisk := overallRiskOf riskScore
    riskScore := riskScore
    recommendations := recommendationsOf hasSSL certPair.1 headers dnsReachable }

/-- First paragraph of the PDF export's risk interpretation (score 80+). -/
def riskInterpStrong : String :=
  "The assessed website demonstrates a STRONG security posture with minimal identified risks. " ++
  "Core security controls are in place, and the site appears to follow security best practices. " ++
  "Regular monitoring and periodic reassessment are recommended to maintain this level of security."

/-- Second paragraph of the PDF export's risk interpretation (score 50-79). -/
def riskInterpModerate : String :=
  "The assessed website shows a MODERATE security posture with some areas requiring attention. " ++
  "While basic security measures are present, there are gaps that could potentially be exploited. " ++
  "Implementing the recommended controls would significantly improve the security posture."

/-- Third paragraph of the PDF export's risk interpretation (score below 50). -/
def riskInterpWeak : String :=
  "The assessed website has a WEAK security posture with significant risks identified. " ++
  "Critical security controls appear to be missing or misconfigured. " ++
  "Immediate action is recommended to address the identified vulnerabilities and reduce exposure to attacks."

/-- The PDF export's choice of risk-interpretation paragraph: `>= 80`
strong, `>= 50` moderate, otherwise weak. -/
def riskInterpretation (riskScore : Int) : String :=
  if riskScore ≥ 80 then riskInterpStrong
  else if riskScore ≥ 50 then riskInterpModerate
  else riskInterpWeak

/-- The PDF export's overview-table rating label, using the same `>= 80`
and `>= 50` thresholds. -/
def ratingLabel (riskScore : Int) : String :=
  if riskScore ≥ 80 then "Strong (Low Risk)"
  else if riskScore ≥ 50 then "Moderate (Medium Risk)"
  else "Weak (High Risk)"

/-! ### Helper lemmas -/

theorem perf_domain (d now : String) :
    (performSecurityAssessment d now).domain = cleanDomain d := rfl

theorem perf_ssl_available (d now : String) :
    (performSecurityAssessment d now).ssl.available
      = hasSSLOf (isTrustedDomain (cleanDomain d)) (simpleHash (cleanDomain d)) := rfl

theorem perf_certStatus (d now : String) :
    (performSecurityAssessment d now).ssl.certificateStatus
      = (certStatusOf (isTrustedDomain (cleanDomain d))
          (hasSSLOf (isTrustedDomain (cleanDomain d)) (simpleHash (cleanDomain d)))
          (simpleHash (cleanDomain d))).1 := rfl

theorem perf_headers (d now : String) :
    (performSecurityAssessment d now).headers
      = headersOf (isTrustedDomain (cleanDomain d)) (simpleHash (cleanDomain d)) := rfl

theorem perf_dns_reachable (d now : String) :
    (performSecurityAssessment d now).dns.reachable
      = dnsReachableOf (isTrustedDomain (cleanDomain d)) (simpleHash (cleanDomain d)) := rfl

theorem perf_riskScore (d now : String) :
    (performSecurityAssessment d now).riskScore
      = riskScoreOf
          (hasSSLOf (isTrustedDomain (cleanDomain d)) (simpleHash (cleanDomain d)))
          (certStatusOf (isTrustedDomain (cleanDomain d))
            (hasSSLOf (isTrustedDomain (cleanDomain d)) (simpleHash (cleanDomain d)))
            (simpleHash (cleanDomain d))).1
          (headersOf (isTrustedDomain (cleanDomain d)) (simpleHash (cleanDomain d)))
          (dnsReachableOf (isTrustedDomain (cleanDomain d)) (simpleHash (cleanDomain d))) := rfl

theorem perf_overallRisk (d now : String) :
    (performSecurityAssessment d now).overallRisk
      = overallRiskOf ((performSecurityAssessment d now).riskScore) := rfl

/-- The header fold of the source subtracts 10 for each missing header. -/
theorem foldl_headers_eq (hs : List SecurityHeader) (s : Int) :
    hs.foldl (fun acc h => if !h.present then acc - 10 else acc) s
      = s - 10 * ((hs.filter fun h => !h.present).length : Int) := by
  induction hs generalizing s with
  | nil => simp
  | cons a t ih =>
    cases hp : a.present <;>
      simp only [List.foldl_cons, List.filter_cons, hp, Bool.not_true, Bool.not_false,
        ite_true, ite_false, ih, List.length_cons] <;>
      push_cast <;> ring

/-- `riskScoreOf` in closed form: the clamp of 100 minus the individual
deductions. -/
theorem riskScoreOf_eq_formula (b : Bool) (c : CertStatus) (hs : List SecurityHeader) (d : Bool) :
    riskScoreOf b c hs d =
      max 0 (min 100 ((100 : Int)
        - (if b then 0 else 30)
        - (if c = CertStatus.Unknown then 10 else 0)
        - (if c = CertStatus.Expired then 20 else 0)
        - 10 * (((hs.filter fun h => !h.present).length : Nat) : Int)
        - (if d then 0 else 15))) := by
  simp only [riskScoreOf]
  rw [foldl_headers_eq]
  cases b <;> cases d <;> cases c <;> simp

/-- `toInt32` only depends on its argument modulo 2^32. -/
theorem toInt32_emod (a : Int) : toInt32 a % 4294967296 = a % 4294967296 := by
  unfold toInt32
  split_ifs <;> omega

/-! ### Claim theorems -/

/-- Claim C3: for every string `s`, two calls to
`performSecurityAssessment s` (at different clock values) produce reports
whose every field is identical except `timestamp`. -/
theorem performSecurityAssessment_deterministic (s t1 t2 : String) :
    (performSecurityAssessment s t1).domain = (performSecurityAssessment s t2).domain ∧
    (performSecurityAssessment s t1).ssl = (performSecurityAssessment s t2).ssl ∧
    (performSecurityAssessment s t1).headers = (performSecurityAssessment s t2).headers ∧
    (performSecurityAssessment s t1).dns = (performSecurityAssessment s t2).dns ∧
    (performSecurityAssessment s t1).overallRisk = (performSecurityAssessment s t2).overallRisk ∧
    (performSecurityAssessment s t1).riskScore = (performSecurityAssessment s t2).riskScore ∧
    (performSecurityAssessment s t1).recommendations
      = (performSecurityAssessment s t2).recommendations :=
  ⟨rfl, rfl, rfl, rfl, rfl, rfl, rfl⟩

/-- Claim C4: `simpleHash` is bit-exact with the spec's reference rolling
hash: starting from 0, `acc = (acc*31 + codepoint)` truncated to the
32-bit signed range per character, absolute value of the final
accumulator returned. -/
theorem simpleHash_eq_specRollingHash (s : String) : simpleHash s = specRollingHash s := by
  unfold simpleHash specRollingHash
  have hstep : (fun (hash : Int) (c : Char) => toInt32 (toInt32 (hash * 32) - hash + c.toNat))
      = fun (acc : Int) (c : Char) => toInt32 (acc * 31 + c.toNat) := by
    funext h c
    unfold toInt32
    split_ifs <;> omega
  rw [hstep]

/-- Claim C6: any input whose cleaned domain is trusted gets SSL
available, a Valid certificate, and reachable DNS. -/
theorem trusted_domain_floor (s now : String)
    (h : isTrustedDomain (cleanDomain s) = true) :
    (performSecurityAssessment s now).ssl.available = true ∧
    (performSecurityAssessment s now).ssl.certificateStatus = CertStatus.Valid ∧
    (performSecurityAssessment s now).dns.reachable = true := by
  refine ⟨?_, ?_, ?_⟩
  · rw [perf_ssl_available, h]
    simp [hasSSLOf]
  · rw [perf_certStatus, h]
    simp [certStatusOf, hasSSLOf]
  · rw [perf_dns_reachable, h]
    simp [dnsReachableOf]

/-- Witness for C6 at the concrete trusted input `"google.com"`. -/
theorem trusted_domain_floor_witness :
    isTrustedDomain (cleanDomain "google.com") = true ∧
    ((performSecurityAssessment "google.com" "2024-01-01T00:00:00.000Z").ssl.available = true ∧
     (performSecurityAssessment "google.com" "2024-01-01T00:00:00.000Z").ssl.certificateStatus
        = CertStatus.Valid ∧
     (performSecurityAssessment "google.com" "2024-01-01T00:00:00.000Z").dns.reachable = true) :=
  ⟨by decide, trusted_domain_floor "google.com" "2024-01-01T00:00:00.000Z" (by decide)⟩

/-- Claim C7: the risk score equals 100 minus the SSL (30), certificate
(10 Unknown / 20 Expired), per-missing-header (10 each) and DNS (15)
deductions, clamped to [0,100]; hence it is bounded by 0 and 100. -/
theorem riskScore_formula_and_bounds (s now : String) :
    (performSecurityAssessment s now).riskScore =
      max 0 (min 100 ((100 : Int)
        - (if (performSecurityAssessment s now).ssl.available then 0 else 30)
        - (if (performSecurityAssessment s now).ssl.certificateStatus = CertStatus.Unknown
            then 10 else 0)
        - (if (performSecurityAssessment s now).ssl.certificateStatus = CertStatus.Expired
            then 20 else 0)
        - 10 * ((((performSecurityAssessment s now).headers.filter
              fun h => !h.present).length : Nat) : Int)
        - (if (performSecurityAssessment s now).dns.reachable then 0 else 15))) ∧
    0 ≤ (performSecurityAssessment s now).riskScore ∧
    (performSecurityAssessment s now).riskScore ≤ 100 := by
  refine ⟨?_, ?_, ?_⟩
  · rw [perf_riskScore, perf_ssl_available, perf_certStatus, perf_headers, perf_dns_reachable,
      riskScoreOf_eq_formula]
  · rw [perf_riskScore]
    unfold riskScoreOf
    exact le_max_left 0 _
  · rw [perf_riskScore]
    unfold riskScoreOf
    exact max_le (by norm_num) (min_le_left _ _)

/-- Claim C8: the overall risk bands are exactly `riskScore ≥ 70` for
Low, `40 ≤ riskScore < 70` for Medium, and `riskScore < 40` for High. -/
theorem risk_score_consistency (s now : String) :
    ((70 ≤ (performSecurityAssessment s now).riskScore)
        ↔ (performSecurityAssessment s now).overallRisk = Risk.Low) ∧
    ((40 ≤ (performSecurityAssessment s now).riskScore ∧
        (performSecurityAssessment s now).riskScore < 70)
        ↔ (performSecurityAssessment s now).overallRisk = Risk.Medium) ∧
    (((performSecurityAssessment s now).riskScore < 40)
        ↔ (performSecurityAssessment s now).overallRisk = Risk.High) := by
  rw [perf_overallRisk]
  generalize (performSecurityAssessment s now).riskScore = x
  unfold overallRiskOf
  split_ifs with h1 h2
  · exact ⟨iff_of_true h1 rfl,
      iff_of_false (by omega) (by decide),
      iff_of_false (by omega) (by decide)⟩
  · exact ⟨iff_of_false h1 (by decide),
      iff_of_true ⟨h2, by omega⟩ rfl,
      iff_of_false (by omega) (by decide)⟩
  · exact ⟨iff_of_false h1 (by decide),
      iff_of_false (by omega) (by decide),
      iff_of_true (by omega) rfl⟩

/-- The clamped score is at least 5 whenever the unclamped deductions are
limited as in the engine: certificate deductions presuppose the matching
SSL state and at most 4 headers can be missing. -/
theorem riskScoreOf_ge_five (b : Bool) (c : CertStatus) (hs : List SecurityHeader) (d : Bool)
    (hbc : b = false → c = CertStatus.Unknown) (hlen : hs.length ≤ 4) :
    5 ≤ riskScoreOf b c hs d := by
  rw [riskScoreOf_eq_formula]
  have hm : ((hs.filter fun h => !h.present).length) ≤ 4 :=
    le_trans (List.length_filter_le _ _) hlen
  cases b
  · rw [hbc rfl]
    cases d <;> simp <;> omega
  · cases c <;> cases d <;> simp <;> omega

/-- Claim C10: every report's risk score is at least 5; the maximal total
deduction is 95, so the lower clamp is never engaged and a score of 0 is
unreachable. -/
theorem riskScore_ge_five (s now : String) :
    5 ≤ (performSecurityAssessment s now).riskScore := by
  rw [perf_riskScore]
  apply riskScoreOf_ge_five
  · intro h
    rw [h]
    simp [certStatusOf]
  · exact le_of_eq rfl

/-- Claim C9: the concrete `"google.com"` scenario: trusted, SSL
available, certificate Valid, all four headers present, DNS reachable,
risk score 100, overall risk Low, the single monitoring recommendation;
and `"HTTPS://WWW.Google.com/path?x=1"` cleans to `"google.com"` and
yields the identical report except for the timestamp. -/
theorem google_scenario :
    (performSecurityAssessment "google.com" "T1").ssl.available = true ∧
    (performSecurityAssessment "google.com" "T1").ssl.certificateStatus = CertStatus.Valid ∧
    ((performSecurityAssessment "google.com" "T1").headers.map fun h => h.present)
      = [true, true, true, true] ∧
    (performSecurityAssessment "google.com" "T1").dns.reachable = true ∧
    (performSecurityAssessment "google.com" "T1").riskScore = 100 ∧
    (performSecurityAssessment "google.com" "T1").overallRisk = Risk.Low ∧
    (performSecurityAssessment "google.com" "T1").recommendations
      = ["Continue monitoring and maintain current security controls"] ∧
    cleanDomain "HTTPS://WWW.Google.com/path?x=1" = "google.com" ∧
    (performSecurityAssessment "HTTPS://WWW.Google.com/path?x=1" "T2").domain
      = (performSecurityAssessment "google.com" "T1").domain ∧
    (performSecurityAssessment "HTTPS://WWW.Google.com/path?x=1" "T2").ssl
      = (performSecurityAssessment "google.com" "T1").ssl ∧
    (performSecurityAssessment "HTTPS://WWW.Google.com/path?x=1" "T2").headers
      = (performSecurityAssessment "google.com" "T1").headers ∧
    (performSecurityAssessment "HTTPS://WWW.Google.com/path?x=1" "T2").dns
      = (performSecurityAssessment "google.com" "T1").dns ∧
    (performSecurityAssessment "HTTPS://WWW.Google.com/path?x=1" "T2").overallRisk
      = (performSecurityAssessment "google.com" "T1").overallRisk ∧
    (performSecurityAssessment "HTTPS://WWW.Google.com/path?x=1" "T2").riskScore
      = (performSecurityAssessment "google.com" "T1").riskScore ∧
    (performSecurityAssessment "HTTPS://WWW.Google.com/path?x=1" "T2").recommendations
      = (performSecurityAssessment "google.com" "T1").recommendations := by
  set_option maxRecDepth 10000 in decide

/-- Counterexample for claim C2: the engine report for `"e.com"` has risk
score 70 and overall risk Low, yet the PDF export's interpretation
paragraph for that score is the moderate one, not the low-risk (strong)
one the claimed 70/40 bands would select. -/
theorem riskInterpretation_band_mismatch :
    (performSecurityAssessment "e.com" "T").riskScore = 70 ∧
    (performSecurityAssessment "e.com" "T").overallRisk = Risk.Low ∧
    riskInterpretation (performSecurityAssessment "e.com" "T").riskScore
      = riskInterpModerate ∧
    riskInterpretation (performSecurityAssessment "e.com" "T").riskScore
      ≠ riskInterpStrong := by
  set_option maxRecDepth 10000 in decide

/-- Claim C2 as amended: the PDF's risk-interpretation paragraph is
chosen by the thresholds 80 and 50 — the same bands as the PDF's own
overview rating label — not by the engine's 70/40 bands. -/
theorem riskInterpretation_bands (r : SecurityReport) :
    (riskInterpretation r.riskScore = riskInterpStrong ↔ 80 ≤ r.riskScore) ∧
    (riskInterpretation r.riskScore = riskInterpModerate
        ↔ (50 ≤ r.riskScore ∧ r.riskScore < 80)) ∧
    (riskInterpretation r.riskScore = riskInterpWeak ↔ r.riskScore < 50) ∧
    (ratingLabel r.riskScore = "Strong (Low Risk)" ↔ 80 ≤ r.riskScore) ∧
    (ratingLabel r.riskScore = "Moderate (Medium Risk)"
        ↔ (50 ≤ r.riskScore ∧ r.riskScore < 80)) ∧
    (ratingLabel r.riskScore = "Weak (High Risk)" ↔ r.riskScore < 50) := by
  generalize r.riskScore = x
  have hsm : riskInterpStrong ≠ riskInterpModerate := by decide
  have hsw : riskInterpStrong ≠ riskInterpWeak := by decide
  have hmw : riskInterpModerate ≠ riskInterpWeak := by decide
  have lsm : ("Strong (Low Risk)" : String) ≠ "Moderate (Medium Risk)" := by decide
  have lsw : ("Strong (Low Risk)" : String) ≠ "Weak (High Risk)" := by decide
  have lmw : ("Moderate (Medium Risk)" : String) ≠ "Weak (High Risk)" := by decide
  unfold riskInterpretation ratingLabel
  split_ifs with h1 h2
  · exact ⟨iff_of_true rfl h1, iff_of_false hsm (by omega), iff_of_false hsw (by omega),
      iff_of_true rfl h1, iff_of_false lsm (by omega), iff_of_false lsw (by omega)⟩
  · exact ⟨iff_of_false (fun h => hsm h.symm) (by omega), iff_of_true rfl ⟨h2, by omega⟩,
      iff_of_false hmw (by omega),
      iff_of_false (fun h => lsm h.symm) (by omega), iff_of_true rfl ⟨h2, by omega⟩,
      iff_of_false lmw (by omega)⟩
  · exact ⟨iff_of_false (fun h => hsw h.symm) (by omega),
      iff_of_false (fun h => hmw h.symm) (by omega), iff_of_true rfl (by omega),
      iff_of_false (fun h => lsw h.symm) (by omega),
      iff_of_false (fun h => lmw h.symm) (by omega), iff_of_true rfl (by omega)⟩

/-- Counterexample for claim C5: on the input `"edu"` the source's
classifier answers true (the bare `"edu"` entry matches by equality),
while the spec's ten-entry/suffix predicate answers false — so the bare
entries do change observable behavior. -/
theorem isTrustedDomain_edu_mismatch :
    isTrustedDomain "edu" = true ∧ specTrusted "edu" = false := by decide

/-- Claim C5 as amended: `isTrustedDomain` agrees with the spec's
predicate extended by the two exact matches `"edu"` and `"gov"` that the
bare allow-list entries contribute. -/
theorem isTrustedDomain_eq_specTrustedAmended (d : String) :
    isTrustedDomain d = specTrustedAmended d := by
  simp only [isTrustedDomain, specTrustedAmended, specTrusted, specNormalize,
    trustedDomains, specAllowList]
  generalize stripLead "www.".data (d.data.map Char.toLower) = n
  simp only [List.any_cons, List.any_nil]
  rw [Bool.eq_iff_iff]
  simp only [Bool.or_eq_true, beq_iff_eq,
    show ("." ++ "edu" : String).data = ".edu".data from rfl,
    show ("." ++ "gov" : String).data = ".gov".data from rfl]
  itauto

/-- Packing a small scalar value keeps its numeric value. -/
theorem char_toNat_ofNat_of_lt {n : Nat} (h : n < 55296) : (Char.ofNat n).toNat = n := by
  rw [Char.ofNat, dif_pos (Or.inl h)]
  rfl

/-- `Char.toLower` is idempotent. -/
theorem toLower_idem (c : Char) : (Char.toLower c).toLower = Char.toLower c := by
  show Char.toLower (if c.toNat ≥ 65 ∧ c.toNat ≤ 90 then Char.ofNat (c.toNat + 32) else c)
      = if c.toNat ≥ 65 ∧ c.toNat ≤ 90 then Char.ofNat (c.toNat + 32) else c
  by_cases h : c.toNat ≥ 65 ∧ c.toNat ≤ 90
  · rw [if_pos h]
    have hv : (Char.ofNat (c.toNat + 32)).toNat = c.toNat + 32 :=
      char_toNat_ofNat_of_lt (by omega)
    show (if (Char.ofNat (c.toNat + 32)).toNat ≥ 65 ∧ (Char.ofNat (c.toNat + 32)).toNat ≤ 90
        then Char.ofNat ((Char.ofNat (c.toNat + 32)).toNat + 32)
        else Char.ofNat (c.toNat + 32)) = Char.ofNat (c.toNat + 32)
    rw [if_neg]
    rw [hv]
    omega
  · rw [if_neg h]
    show (if c.toNat ≥ 65 ∧ c.toNat ≤ 90 then Char.ofNat (c.toNat + 32) else c) = c
    rw [if_neg h]

/-- A list is unchanged by `map` when the function fixes each element. -/
theorem map_eq_self_of_fixed {l : List Char} {f : Char → Char}
    (h : ∀ c ∈ l, f c = c) : l.map f = l := by
  induction l with
  | nil => rfl
  | cons a t ih =>
    rw [List.map_cons, h a (List.mem_cons_self a t), ih fun c hc => h c (List.mem_cons_of_mem a hc)]

/-- The output of `cleanCore` is a sublist of the lower-cased trimmed
input. -/
theorem stripScheme_sublist (l : List Char) : (stripScheme l).Sublist l := by
  unfold stripScheme
  split_ifs <;> first | exact List.drop_sublist _ _ | exact List.Sublist.refl _

theorem stripLead_sublist (pre l : List Char) : (stripLead pre l).Sublist l := by
  unfold stripLead
  split_ifs <;> first | exact List.drop_sublist _ _ | exact List.Sublist.refl _

theorem cleanCore_sublist (l : List Char) :
    (cleanCore l).Sublist ((trimList l).map Char.toLower) := by
  unfold cleanCore
  exact (List.takeWhile_sublist _).trans ((List.takeWhile_sublist _).trans
    ((stripLead_sublist _ _).trans (stripScheme_sublist _)))

theorem cleanCore_no_qmark {l : List Char} {c : Char} (hc : c ∈ cleanCore l) :
    (c != '?') = true := by
  unfold cleanCore at hc
  exact List.mem_takeWhile_imp (p := fun c => c != '?') hc

theorem cleanCore_no_slash {l : List Char} {c : Char} (hc : c ∈ cleanCore l) :
    (c != '/') = true := by
  unfold cleanCore at hc
  have hc2 : c ∈ List.takeWhile (fun c => c != '/')
      (stripLead "www.".data (stripScheme (List.map Char.toLower (trimList l)))) :=
    (List.takeWhile_sublist _).subset hc
  exact List.mem_takeWhile_imp (p := fun c => c != '/') hc2

theorem cleanCore_lower {l : List Char} {c : Char} (hc : c ∈ cleanCore l) :
    Char.toLower c = c := by
  have hm := (cleanCore_sublist l).subset hc
  rcases List.mem_map.1 hm with ⟨a, _, rfl⟩
  exact toLower_idem a

/-- Claim C1 as amended: `cleanDomain` is idempotent on every input
whose cleaned result is trim-fixed and does not itself begin with
`www.`; in general a second application can strip a further `www.`
prefix or surrounding whitespace uncovered by the first. -/
theorem cleanDomain_idem_of_fixed (s : String)
    (htrim : trimList (cleanDomain s).data = (cleanDomain s).data)
    (hwww : "www.".data.isPrefixOf (cleanDomain s).data = false) :
    cleanDomain (cleanDomain s) = cleanDomain s := by
  have hq : ∀ c ∈ (cleanDomain s).data, (c != '?') = true := fun c hc => cleanCore_no_qmark hc
  have hsl : ∀ c ∈ (cleanDomain s).data, (c != '/') = true := fun c hc => cleanCore_no_slash hc
  have hlow : ∀ c ∈ (cleanDomain s).data, Char.toLower c = c := fun c hc => cleanCore_lower hc
  have hnoslash : '/' ∉ (cleanDomain s).data := by
    intro hm
    have h := hsl '/' hm
    simp at h
  have h1 : "https://".data.isPrefixOf (cleanDomain s).data = false := by
    by_contra hb
    rw [Bool.not_eq_false] at hb
    rcases List.isPrefixOf_iff_prefix.mp hb with ⟨r, hr⟩
    exact hnoslash (hr ▸ List.mem_append_left r (by decide))
  have h2 : "http://".data.isPrefixOf (cleanDomain s).data = false := by
    by_contra hb
    rw [Bool.not_eq_false] at hb
    rcases List.isPrefixOf_iff_prefix.mp hb with ⟨r, hr⟩
    exact hnoslash (hr ▸ List.mem_append_left r (by decide))
  suffices h : cleanCore (cleanDomain s).data = (cleanDomain s).data by
    show String.mk (cleanCore (cleanDomain s).data) = cleanDomain s
    rw [h]
  unfold cleanCore
  rw [htrim, map_eq_self_of_fixed hlow]
  have hss : stripScheme (cleanDomain s).data = (cleanDomain s).data := by
    simp [stripScheme, h1, h2]
  have hsw : stripLead "www.".data (cleanDomain s).data = (cleanDomain s).data := by
    simp [stripLead, hwww]
  rw [hss, hsw, List.takeWhile_eq_self_iff.mpr hsl, List.takeWhile_eq_self_iff.mpr hq]

/-- Counterexample for claim C1: `cleanDomain "www.www.a"` is
`"www.a"`, but cleaning again strips the uncovered `www.` and yields
`"a"`, so normalization is not idempotent. -/
theorem cleanDomain_not_idempotent :
    cleanDomain "www.www.a" = "www.a" ∧ cleanDomain "www.a" = "a" ∧
    cleanDomain (cleanDomain "www.www.a") ≠ cleanDomain "www.www.a" := by decide

/-- Witness for the amended C1 at the concrete input
`"https://example.org/path"`. -/
theorem cleanDomain_idem_of_fixed_witness :
    trimList (cleanDomain "https://example.org/path").data
      = (cleanDomain "https://example.org/path").data ∧
    "www.".data.isPrefixOf (cleanDomain "https://example.org/path").data = false ∧
    cleanDomain (cleanDomain "https://example.org/path")
      = cleanDomain "https://example.org/path" :=
  ⟨by decide, by decide,
    cleanDomain_idem_of_fixed "https://example.org/path" (by decide) (by decide)⟩
